import Mathlib

/-!
Shallow embedding of the ms1-identity service's composite deletion
workflow (`app/composite/service.py`, `app/clients.py`), of the account
repository's conditional-update path (`app/users/users.py`), and of the
handle de-duplication loop in the Google sign-in path
(`app/auth/auth.py`).

Remote HTTP endpoints are modelled by a `World`: for each endpoint the
world fixes the response the remote service would give.  A response is
either `netErr` (the HTTP library raises before producing a response:
connection refused, timeout, or an unparseable body — all of these
propagate identically in the source) or `resp status body`.  The item
enumeration endpoint is additionally indexed by the occurrence number of
the request, because the orchestrator enumerates listings twice (once in
its blocking check and once inside the bulk delete) and the remote
service may answer the two requests differently.

Every adapter function returns, besides its result, the list of HTTP
calls it issued, so that claims about which calls are or are not made
can be stated.  Fallible Python code is embedded as `Except String`:
`.error m` marks a raised exception carrying message `m`.
-/

/-- One HTTP call issued against a remote store. -/
inductive Call where
  | getUser (uni : String)
  | getItemsBySeller (uid : Nat)
  | getAllItems
  | deleteUser (uni : String)
  | deleteItem (id : String)
  deriving DecidableEq, Repr

/-- A remote response: either the transport layer raised (`netErr`), or a
response with a status code and a parsed body was produced. -/
inductive MsResp (α : Type) where
  | netErr (msg : String)
  | resp (status : Nat) (body : α)
  deriving DecidableEq, Repr

/-- Parsed body of a `GET /users/{uni}` 200 response: the source only
reads `user.get("user_id")`. -/
structure UserRec where
  user_id : Option Nat
  deriving DecidableEq, Repr

/-- Response of the identity store to `GET /users/{uni}`.  `notFound` is
the 404 case (mapped to `(None, None)` by the adapter); `httpErr` is any
other status on which `raise_for_status` raises. -/
inductive UserResp where
  | netErr (msg : String)
  | notFound
  | httpErr (status : Nat) (msg : String)
  | found (u : UserRec) (etag : Option String)
  deriving DecidableEq, Repr

/-- One listing record as read by the source: `item_id`, `id`,
`seller_id` and `status` fields, each possibly absent. -/
structure Item where
  item_id : Option Nat
  id : Option Nat
  seller_id : Option Nat
  status : Option String
  deriving DecidableEq, Repr

/-- Shape of the catalog's items response body: a JSON array, an
`{"items": [...]}` envelope, or anything else. -/
inductive ItemsBody where
  | arr (items : List Item)
  | envl (items : List Item)
  | other
  deriving DecidableEq, Repr

/-- The environment of one orchestration: what each remote endpoint
would answer.  `itemsPrimary k` / `itemsAll k` are the answers to the
`k`-th occurrence of `GET /items?seller_id=...` resp. `GET /items`. -/
structure World where
  userResp : UserResp
  itemsPrimary : Nat → MsResp ItemsBody
  itemsAll : Nat → MsResp ItemsBody
  deleteUserResp : MsResp Unit
  deleteItem : String → MsResp Unit

/-- Python truthiness of `item.get("item_id") or item.get("id")`:
`None` and `0` are falsy, so a falsy `item_id` falls through to `id`. -/
def pyOr (a b : Option Nat) : Option Nat :=
  match a with
  | some n => if n = 0 then b else some n
  | none => b

/-- The identifier the source associates to a listing
(`item.get("item_id") or item.get("id")`). -/
def itemRef (it : Item) : Option Nat :=
  pyOr it.item_id it.id

/-- `status in {"reserved", "sold"}` from the blocking check. -/
def isBlocking (it : Item) : Bool :=
  it.status == some ("reserved") || it.status == some ("sold")

/-- Normalisation done by `ms2_list_items_by_user_id` on a parsed items
body: a list or an envelope is filtered by `seller_id == user_id`; any
other shape becomes the empty list. -/
def normalizeItems (uid : Nat) (b : ItemsBody) : List Item :=
  match b with
  | .arr l => l.filter (fun it => it.seller_id == some uid)
  | .envl l => l.filter (fun it => it.seller_id == some uid)
  | .other => []

/-- `ms1_get_user` (`app/clients.py:9`): 404 becomes `(None, None)`;
other non-2xx statuses raise via `raise_for_status`; transport errors
raise. -/
def ms1_get_user (w : World) (uni : String) :
    Except String (Option UserRec × Option String) × List Call :=
  ( match w.userResp with
    | .netErr m => .error m
    | .notFound => .ok (none, none)
    | .httpErr _ m => .error m
    | .found u e => .ok (some u, e),
    [Call.getUser uni] )

/-- `ms1_delete_user` (`app/clients.py:16`): returns the raw status
code; a transport error raises. -/
def ms1_delete_user (w : World) (uni : String) :
    Except String Nat × List Call :=
  ( match w.deleteUserResp with
    | .netErr m => .error m
    | .resp st _ => .ok st,
    [Call.deleteUser uni] )

/-- `ms2_list_items_by_user_id` (`app/clients.py:20`), for the `k`-th
enumeration request.  An HTTP error status of 404 yields `[]`; any other
HTTP error status triggers the unfiltered `GET /items` fallback whose
own failures are swallowed into `[]`; a transport error on the primary
request propagates as a raised exception. -/
def ms2_list_items (w : World) (uid : Nat) (k : Nat) :
    Except String (List Item) × List Call :=
  match w.itemsPrimary k with
  | .netErr m => (.error m, [Call.getItemsBySeller uid])
  | .resp st body =>
    if 400 ≤ st then
      if st = 404 then (.ok [], [Call.getItemsBySeller uid])
      else
        match w.itemsAll k with
        | .netErr _ => (.ok [], [Call.getItemsBySeller uid, Call.getAllItems])
        | .resp st2 body2 =>
          if 400 ≤ st2 then (.ok [], [Call.getItemsBySeller uid, Call.getAllItems])
          else (.ok (normalizeItems uid body2),
                [Call.getItemsBySeller uid, Call.getAllItems])
    else (.ok (normalizeItems uid body), [Call.getItemsBySeller uid])

/-- The item identifiers for which `ms2_delete_items_by_user_id`
actually submits a per-item delete (`if item_id:` — truthiness again
skips `None` and `0`). -/
def submittedIds (items : List Item) : List Nat :=
  items.filterMap (fun it =>
    match itemRef it with
    | some n => if n = 0 then none else some n
    | none => none)

/-- Body of the `try` in `ms2_delete_items_by_user_id`
(`app/clients.py:61`): enumerate (second occurrence), 404 when nothing
to delete, otherwise delete each item and aggregate counts.  Only the
enumeration can raise here; per-item transport errors are caught in the
loop and counted as failures. -/
def ms2_delete_items_core (w : World) (uid : Nat) :
    Except String Nat × List Call :=
  match ms2_list_items w uid 1 with
  | (.error m, c1) => (.error m, c1)
  | (.ok items, c1) =>
    if items.isEmpty then (.ok 404, c1)
    else
      let ids := submittedIds items
      let calls := c1 ++ ids.map (fun i => Call.deleteItem (toString i))
      let deleted := (ids.filter (fun i =>
        match w.deleteItem (toString i) with
        | .resp st _ => st = 200 || st = 204
        | .netErr _ => false)).length
      if deleted = items.length then (.ok 200, calls)
      else if 0 < deleted then (.ok 207, calls)
      else (.ok 500, calls)

/-- `ms2_delete_items_by_user_id` with its outer `except Exception:
return 404`: the function is total — every raised exception inside the
body is converted into status 404. -/
def ms2_delete_items (w : World) (uid : Nat) : Nat × List Call :=
  match ms2_delete_items_core w uid with
  | (.error _, c) => (404, c)
  | (.ok n, c) => (n, c)

/-- Identity-leg status string (`app/composite/service.py:91`). -/
def ms1Leg (r : Except String Nat) : String :=
  match r with
  | .error m => ("error:") ++ m
  | .ok st =>
    if st = 200 then ("deleted")
    else if st = 404 then ("not_found")
    else ("failed:") ++ toString st

/-- Catalog-leg status string (`app/composite/service.py:83`). -/
def ms2Leg (st : Nat) : String :=
  if st = 200 || st = 204 then ("deleted")
  else if st = 404 then ("none")
  else ("failed:") ++ toString st

/-- Error strings appended for the identity leg. -/
def ms1Errs (r : Except String Nat) : List String :=
  match r with
  | .error m => [("ms1_identity error: ") ++ m]
  | .ok st =>
    if st = 200 || st = 404 then []
    else [("ms1_identity returned ") ++ toString st]

/-- Error strings appended for the catalog leg. -/
def ms2Errs (st : Nat) : List String :=
  if st = 200 || st = 204 || st = 404 then []
  else [("ms2_catalog returned ") ++ toString st]

/-- The salient fields of each JSON response body the orchestrator can
produce. -/
inductive Body where
  | userNotFound (uni : String)
  | missingId (uni : String)
  | unavailable (details : String)
  | conflict (blocked : List (Option Nat))
  | fullSuccess (ms2 : String)
  | multiStatus (ms1 ms2 : String) (errors : List String)
  deriving DecidableEq, Repr

/-- `delete_user_and_items` (`app/composite/service.py:12`): resolve the
account, enumerate listings, enforce the blocking invariant, then run
both deletion legs and reconcile.  `.error m` marks an exception
escaping the function (the phase-1 lookup is not wrapped in a `try`).
The two phase-4 legs are independent; their call traces are recorded
catalog leg first (trace order is irrelevant to every stated claim). -/
def delete_user_and_items (w : World) (uni : String) :
    Except String (Nat × Body) × List Call :=
  match ms1_get_user w uni with
  | (.error m, c0) => (.error m, c0)
  | (.ok (none, _), c0) => (.ok (404, Body.userNotFound uni), c0)
  | (.ok (some u, _), c0) =>
    match u.user_id with
    | none => (.ok (500, Body.missingId uni), c0)
    | some uid =>
      if uid = 0 then (.ok (500, Body.missingId uni), c0)
      else
        match ms2_list_items w uid 0 with
        | (.error m, c1) => (.ok (503, Body.unavailable m), c0 ++ c1)
        | (.ok items, c1) =>
          let blocked := (items.filter isBlocking).map itemRef
          if !blocked.isEmpty then
            (.ok (409, Body.conflict blocked), c0 ++ c1)
          else
            let r2 := ms2_delete_items w uid
            let r1 := ms1_delete_user w uni
            let m1 := ms1Leg r1.1
            let m2 := ms2Leg r2.1
            let errs := ms2Errs r2.1 ++ ms1Errs r1.1
            let calls := c0 ++ c1 ++ r2.2 ++ r1.2
            if m1 == ("deleted") && (m2 == ("deleted") || m2 == ("none"))
            then (.ok (200, Body.fullSuccess m2), calls)
            else (.ok (207, Body.multiStatus m1 m2 errs), calls)

/-- A call directed at the catalog store. -/
def isCatalogCall : Call → Bool
  | .getItemsBySeller _ => true
  | .getAllItems => true
  | .deleteItem _ => true
  | _ => false

/-- A destructive (deletion) call against either store. -/
def isDeleteCall : Call → Bool
  | .deleteUser _ => true
  | .deleteItem _ => true
  | _ => false

/-!
Account repository: the conditional-update path of
`app/users/users.py` (`etag_of`, `normalize_etag`, `replace_user`).
Timestamps are modelled by their ISO string (so `isoformat` is the
identity); `None` last-seen values remain `Option.none`.
-/

/-- One persisted account row (the fields `replace_user` touches). -/
structure DbUser where
  user_id : Nat
  uni : String
  student_name : String
  dept_name : Option String
  phone : Option String
  last_seen_at : Option String
  deriving DecidableEq, Repr

/-- `etag_of` (`app/users/users.py:47`): a weak validator built from the
last-seen timestamp, `"0"` when the account has none. -/
def etag_of (u : DbUser) : String :=
  ("W/\"") ++ (u.last_seen_at.getD ("0")) ++ ("\"")

/-- Strip every leading and trailing occurrence of `c` (Python
`str.strip(c)`). -/
def stripChar (s : String) (c : Char) : String :=
  String.mk (((s.data.dropWhile (fun x => x == c)).reverse.dropWhile
    (fun x => x == c)).reverse)

/-- Python `str.strip()`: remove leading and trailing whitespace. -/
def pyStrip (s : String) : String :=
  String.mk (((s.data.dropWhile Char.isWhitespace).reverse.dropWhile
    Char.isWhitespace).reverse)

/-- `etag.startswith("W/")`. -/
def startsWithWV (s : String) : Bool :=
  match s.data with
  | 'W' :: '/' :: _ => true
  | _ => false

/-- `etag[2:]`. -/
def dropChars (s : String) (n : Nat) : String :=
  String.mk (s.data.drop n)

/-- `normalize_etag` (`app/users/users.py:52`). -/
def normalize_etag (etag : String) : String :=
  if etag = "" then ""
  else
    let e := pyStrip etag
    if startsWithWV e then
      let v := pyStrip (dropChars e 2)
      let v := stripChar (stripChar v '"') '\''
      ("W/") ++ v
    else
      stripChar (stripChar e '"') '\''

/-- The optional fields of a `PUT /users/{uni}` payload (`UserUpdate`). -/
structure UserUpdate where
  student_name : Option String
  dept_name : Option String
  phone : Option String
  deriving DecidableEq, Repr

/-- Row lookup by handle (`db.query(User).filter(User.uni == uni).first()`). -/
def findByUni (db : List DbUser) (uni : String) : Option DbUser :=
  db.find? (fun u => u.uni == uni)

/-- The field assignments of `replace_user`: provided fields overwrite,
absent ones are kept, and `last_seen_at` is bumped to the current time. -/
def applyUpdate (u : DbUser) (p : UserUpdate) (now : String) : DbUser :=
  { u with
    student_name := p.student_name.getD u.student_name
    dept_name := match p.dept_name with | some d => some d | none => u.dept_name
    phone := match p.phone with | some d => some d | none => u.phone
    last_seen_at := some now }

/-- `replace_user` (`app/users/users.py:237`): requires an `If-Match`
header (absent or empty → 428), 404s on a missing account, 412s on a
normalized-ETag mismatch, and otherwise applies the update and returns
the refreshed row.  The result pairs `(status, updated row if any)`
with the database after the call. -/
def replace_user (db : List DbUser) (uni : String) (ifMatch : Option String)
    (p : UserUpdate) (now : String) : (Nat × Option DbUser) × List DbUser :=
  match ifMatch with
  | none => ((428, none), db)
  | some t =>
    if t = "" then ((428, none), db)
    else
      match findByUni db uni with
      | none => ((404, none), db)
      | some u =>
        if normalize_etag t ≠ normalize_etag (etag_of u) then ((412, none), db)
        else
          let u2 := applyUpdate u p now
          ((200, some u2), db.map (fun v => if v.uni == uni then u2 else v))

/-!
Handle de-duplication in the Google sign-in path
(`app/auth/auth.py:97`).  The `while` loop is embedded with explicit
fuel `taken.length + 1`: the loop body adds a fresh candidate each turn,
and since the candidates are pairwise distinct strings the source loop
never runs longer than that on a finite account table.
-/

/-- The `k`-th candidate handle tried by the loop: the base itself, then
`base_1`, `base_2`, ... -/
def candidateUni (base : String) : Nat → String
  | 0 => base
  | k + 1 => base ++ ("_") ++ toString (k + 1)

/-- The `while db.query(...).first(): uni = f"{base_uni}_{counter}"`
loop, fuelled. -/
def dedupeLoop (taken : List String) (base uni : String) :
    Nat → Nat → String
  | _, 0 => uni
  | counter, f + 1 =>
    if uni ∈ taken then
      dedupeLoop taken base (base ++ ("_") ++ toString counter) (counter + 1) f
    else uni

/-- The handle the creation branch settles on, starting from `base`
with `counter = 1`. -/
def chooseUni (taken : List String) (base : String) : String :=
  dedupeLoop taken base base 1 (taken.length + 1)

/-- `email.split("@")[0]`: the characters before the first `@` (the
whole string when there is none). -/
def localPart (email : String) : String :=
  String.mk (email.data.takeWhile (fun c => !(c == '@')))

/-- The base handle derived from the Google profile: the email
local-part, or `user_` plus the first 8 characters of the subject
identifier when the email has no `@`. -/
def baseUniOf (sub email : String) : String :=
  if email.data.contains '@' then localPart email
  else ("user_") ++ String.mk (sub.data.take 8)

/-- One account row as touched by the sign-in path. -/
structure GUser where
  uni : String
  student_name : String
  email : String
  avatar_url : Option String
  google_id : Option String
  last_seen_at : Option String
  deriving DecidableEq, Repr

/-- `get_or_create_user_from_google` (`app/auth/auth.py:54`); `none`
models the 400 raised when `sub` or `email` is missing/empty.  Returns
the signed-in user's row and the database after the call. -/
def get_or_create_user_from_google (db : List GUser) (sub email name : String)
    (picture : Option String) (now : String) : Option (GUser × List GUser) :=
  if sub = "" ∨ email = "" then none
  else
    match db.find? (fun u => u.google_id == some sub) with
    | some u =>
      let u2 := { u with
        student_name := if name ≠ "" ∧ u.student_name = "" then name
          else u.student_name
        avatar_url := match picture with
          | some p => if u.avatar_url = none then some p else u.avatar_url
          | none => u.avatar_url
        email := if u.email ≠ email then email else u.email
        last_seen_at := some now }
      some (u2, db.map (fun v => if v.uni == u.uni then u2 else v))
    | none =>
      match db.find? (fun u => u.email == email) with
      | some u =>
        let u2 := { u with
          google_id := some sub
          student_name := if name ≠ "" ∧ u.student_name = "" then name
            else u.student_name
          avatar_url := match picture with
            | some p => if u.avatar_url = none then some p else u.avatar_url
            | none => u.avatar_url
          last_seen_at := some now }
        some (u2, db.map (fun v => if v.uni == u.uni then u2 else v))
      | none =>
        let uni := chooseUni (db.map (fun u => u.uni)) (baseUniOf sub email)
        let u2 : GUser := {
          uni := uni
          student_name := if name ≠ "" then name
            else localPart email
          email := email
          avatar_url := picture
          google_id := some sub
          last_seen_at := some now }
        some (u2, db ++ [u2])

/-!
Concrete worlds and rows used by the witnesses and counterexamples.
-/

/-- A world whose identity store knows no account for the handle. -/
def wNoUser : World where
  userResp := .notFound
  itemsPrimary := fun _ => .netErr ("down")
  itemsAll := fun _ => .netErr ("down")
  deleteUserResp := .netErr ("down")
  deleteItem := fun _ => .netErr ("down")

/-- A listing in a blocking state, owned by account 42. -/
def reservedItem : Item where
  item_id := some 7
  id := none
  seller_id := some 42
  status := some ("reserved")

/-- A world where account 42 owns one reserved listing. -/
def wBlocked : World where
  userResp := .found { user_id := some 42 } none
  itemsPrimary := fun _ => .resp 200 (.arr [reservedItem])
  itemsAll := fun _ => .resp 200 .other
  deleteUserResp := .resp 200 ()
  deleteItem := fun _ => .resp 200 ()

/-- A world where the account exists but the identity lookup's
transport layer raises. -/
def wConnRefused : World where
  userResp := .netErr ("connection refused")
  itemsPrimary := fun _ => .resp 200 (.arr [])
  itemsAll := fun _ => .resp 200 (.arr [])
  deleteUserResp := .resp 200 ()
  deleteItem := fun _ => .resp 200 ()

/-- The outcome is a returned HTTP-style response, not an escaped
exception. -/
def isOkResult : Except String (Nat × Body) → Bool
  | .ok _ => true
  | .error _ => false

/-- The enumeration adapter only ever issues read calls. -/
theorem ms2_list_items_no_delete (w : World) (uid k : Nat) :
    ((ms2_list_items w uid k).2.filter isDeleteCall) = [] := by
  unfold ms2_list_items
  repeat' split
  all_goals rfl

/-- C1: an account owning at least one reserved/sold listing gets a 409
conflict whose blocked list is exactly the ids of those listings, and no
deletion call is issued against either store. -/
theorem conflict_blocks_all_deletion (w : World) (uni : String) (u : UserRec)
    (e : Option String) (uid : Nat) (items : List Item) (c1 : List Call)
    (hu : w.userResp = .found u e) (hid : u.user_id = some uid) (h0 : uid ≠ 0)
    (hl : ms2_list_items w uid 0 = (.ok items, c1))
    (hb : items.filter isBlocking ≠ []) :
    delete_user_and_items w uni =
      (.ok (409, Body.conflict ((items.filter isBlocking).map itemRef)),
        Call.getUser uni :: c1) ∧
    (∀ b, b ∈ (items.filter isBlocking).map itemRef ↔
      ∃ it, it ∈ items ∧ isBlocking it = true ∧ itemRef it = b) ∧
    ((Call.getUser uni :: c1).filter isDeleteCall) = [] := by
  refine ⟨?_, ?_, ?_⟩
  · unfold delete_user_and_items ms1_get_user
    rw [hu]
    simp only [hid, h0, if_false]
    rw [hl]
    simp [List.isEmpty_iff, hb]
  · intro b
    simp [List.mem_map, List.mem_filter, and_assoc]
  · have h2 := ms2_list_items_no_delete w uid 0
    rw [hl] at h2
    simpa [isDeleteCall] using h2

/-- C3: a handle with no matching account yields 404 and the catalog
adapter is never called. -/
theorem notfound_skips_catalog (w : World) (uni : String)
    (h : w.userResp = .notFound) :
    delete_user_and_items w uni =
      (.ok (404, Body.userNotFound uni), [Call.getUser uni]) ∧
    ((delete_user_and_items w uni).2.filter isCatalogCall) = [] := by
  have hr : delete_user_and_items w uni =
      (.ok (404, Body.userNotFound uni), [Call.getUser uni]) := by
    unfold delete_user_and_items ms1_get_user
    rw [h]
  exact ⟨hr, by rw [hr]; rfl⟩

/-- C3 witness: the not-found world returns 404 with only the identity
lookup in its trace. -/
theorem notfound_skips_catalog_witness :
    delete_user_and_items wNoUser ("ab") =
      (.ok (404, Body.userNotFound ("ab")), [Call.getUser ("ab")]) ∧
    ((delete_user_and_items wNoUser ("ab")).2.filter isCatalogCall) = [] :=
  notfound_skips_catalog wNoUser ("ab") rfl

/-- C1 witness: the spec's concrete scenario — one reserved listing with
id 7 owned by account 42 — yields 409 with blocked list `[7]`. -/
theorem conflict_blocks_all_deletion_witness :
    delete_user_and_items wBlocked ("abc123") =
      (.ok (409, Body.conflict [some 7]),
        [Call.getUser ("abc123"), Call.getItemsBySeller 42]) :=
  (conflict_blocks_all_deletion wBlocked ("abc123") { user_id := some 42 }
    none 42 [reservedItem] [Call.getItemsBySeller 42] rfl rfl
    (by decide) rfl (by decide)).1

/-- C5 counterexample: a transport error raised by the initial identity
lookup escapes `delete_user_and_items` as a raw exception — it is not
converted into a typed outcome. -/
theorem transport_error_escapes_lookup :
    delete_user_and_items wConnRefused ("ab") =
      (.error ("connection refused"), [Call.getUser ("ab")]) := rfl

/-- C5 amended: once the initial identity lookup returns (2xx or 404),
every later transport error is converted at its call site, so the
orchestrator always returns a typed outcome, whatever the rest of the
world does. -/
theorem total_after_lookup (w : World) (uni : String) (u : UserRec)
    (e : Option String)
    (h : w.userResp = .notFound ∨ w.userResp = .found u e) :
    isOkResult (delete_user_and_items w uni).1 = true := by
  rcases h with h | h
  · simp [delete_user_and_items, ms1_get_user, h, isOkResult]
  · unfold delete_user_and_items ms1_get_user
    rw [h]
    dsimp only
    repeat' split
    all_goals rfl

/-- C5 amended witness: a world whose catalog and deletion endpoints all
raise still produces a typed outcome when the lookup succeeds. -/
theorem total_after_lookup_witness :
    isOkResult (delete_user_and_items wNoUser ("cd")).1 = true :=
  total_after_lookup wNoUser ("cd") { user_id := none } none (Or.inl rfl)

/-- A world in which the account exists but the catalog answers every
enumeration request — primary and fallback — with HTTP 500. -/
def wHttp500 : World where
  userResp := .found { user_id := some 1 } none
  itemsPrimary := fun _ => .resp 500 .other
  itemsAll := fun _ => .resp 500 .other
  deleteUserResp := .resp 200 ()
  deleteItem := fun _ => .resp 200 ()

/-- C4 counterexample: with the catalog answering 500 to every
enumeration request, the adapter swallows the error into an empty item
list and the orchestrator proceeds to delete the account (outcome 200,
not 503), issuing the identity deletion call. -/
theorem catalog_http_error_deletes_anyway :
    delete_user_and_items wHttp500 ("ab") =
      (.ok (200, Body.fullSuccess ("none")),
        [Call.getUser ("ab"), Call.getItemsBySeller 1, Call.getAllItems,
          Call.getItemsBySeller 1, Call.getAllItems, Call.deleteUser ("ab")]) ∧
    Call.deleteUser ("ab") ∈ (delete_user_and_items wHttp500 ("ab")).2 := by
  refine ⟨rfl, ?_⟩
  rw [(rfl : delete_user_and_items wHttp500 ("ab") =
    (.ok (200, Body.fullSuccess ("none")),
      [Call.getUser ("ab"), Call.getItemsBySeller 1, Call.getAllItems,
        Call.getItemsBySeller 1, Call.getAllItems, Call.deleteUser ("ab")]))]
  decide

/-- C4 amended: when the phase-2 enumeration raises (the seller-id
request itself fails at transport level), the orchestrator returns 503
and no deletion call is issued against either store. -/
theorem catalog_unreachable_503 (w : World) (uni : String) (u : UserRec)
    (e : Option String) (uid : Nat) (m : String)
    (hu : w.userResp = .found u e) (hid : u.user_id = some uid) (h0 : uid ≠ 0)
    (hnet : w.itemsPrimary 0 = .netErr m) :
    delete_user_and_items w uni =
      (.ok (503, Body.unavailable m),
        [Call.getUser uni, Call.getItemsBySeller uid]) ∧
    ((delete_user_and_items w uni).2.filter isDeleteCall) = [] := by
  have hl : ms2_list_items w uid 0 = (.error m, [Call.getItemsBySeller uid]) := by
    unfold ms2_list_items
    rw [hnet]
  have hr : delete_user_and_items w uni =
      (.ok (503, Body.unavailable m),
        [Call.getUser uni, Call.getItemsBySeller uid]) := by
    unfold delete_user_and_items ms1_get_user
    rw [hu]
    simp only [hid, h0, if_false]
    rw [hl]
    rfl
  exact ⟨hr, by rw [hr]; rfl⟩

/-- A world where the account exists and the seller-id enumeration times
out at transport level. -/
def wCatalogDown : World where
  userResp := .found { user_id := some 9 } none
  itemsPrimary := fun _ => .netErr ("timeout")
  itemsAll := fun _ => .resp 200 (.arr [])
  deleteUserResp := .resp 200 ()
  deleteItem := fun _ => .resp 200 ()

/-- C4 amended witness. -/
theorem catalog_unreachable_503_witness :
    delete_user_and_items wCatalogDown ("ef") =
      (.ok (503, Body.unavailable ("timeout")),
        [Call.getUser ("ef"), Call.getItemsBySeller 9]) ∧
    ((delete_user_and_items wCatalogDown ("ef")).2.filter isDeleteCall) = [] :=
  catalog_unreachable_503 wCatalogDown ("ef") { user_id := some 9 } none 9
    ("timeout") rfl rfl (by decide) rfl

/-- The status code of a returned outcome, `none` for an escaped
exception. -/
def statusOf : Except String (Nat × Body) → Option Nat
  | .ok (st, _) => some st
  | .error _ => none

/-- After phases 1-3 pass with no blocking listing, the outcome is the
phase-5 reconciliation of the two deletion legs. -/
theorem delete_phase4 (w : World) (uni : String) (u : UserRec)
    (e : Option String) (uid : Nat) (items : List Item) (c1 : List Call)
    (hu : w.userResp = .found u e) (hid : u.user_id = some uid) (h0 : uid ≠ 0)
    (hl : ms2_list_items w uid 0 = (.ok items, c1))
    (hnb : items.filter isBlocking = []) :
    delete_user_and_items w uni =
      if (ms1Leg (ms1_delete_user w uni).1 == ("deleted") &&
          (ms2Leg (ms2_delete_items w uid).1 == ("deleted") ||
            ms2Leg (ms2_delete_items w uid).1 == ("none"))) = true then
        (.ok (200, Body.fullSuccess (ms2Leg (ms2_delete_items w uid).1)),
          [Call.getUser uni] ++ c1 ++ (ms2_delete_items w uid).2 ++
            (ms1_delete_user w uni).2)
      else
        (.ok (207, Body.multiStatus (ms1Leg (ms1_delete_user w uni).1)
            (ms2Leg (ms2_delete_items w uid).1)
            (ms2Errs (ms2_delete_items w uid).1 ++
              ms1Errs (ms1_delete_user w uni).1)),
          [Call.getUser uni] ++ c1 ++ (ms2_delete_items w uid).2 ++
            (ms1_delete_user w uni).2) := by
  unfold delete_user_and_items ms1_get_user
  rw [hu]
  simp only [hid, h0, if_false]
  rw [hl]
  simp [hnb]

/-- A world in which the account exists with no listings, the catalog
leg is a no-op, but the identity store answers the delete with 404. -/
def wIdentityRace : World where
  userResp := .found { user_id := some 1 } none
  itemsPrimary := fun _ => .resp 200 (.arr [])
  itemsAll := fun _ => .resp 200 (.arr [])
  deleteUserResp := .resp 404 ()
  deleteItem := fun _ => .resp 200 ()

/-- C2 counterexample: the identity leg reports `not_found` and the
catalog leg the success state `none`, yet the outcome is 207, not the
claimed full success 200. -/
theorem identity_notfound_not_full_success :
    delete_user_and_items wIdentityRace ("ab") =
      (.ok (207, Body.multiStatus ("not_found") ("none") []),
        [Call.getUser ("ab"), Call.getItemsBySeller 1,
          Call.getItemsBySeller 1, Call.deleteUser ("ab")]) := rfl

/-- C2 amended: the catalog leg counts `deleted` and `none` as success,
but full success (200) additionally requires the identity leg to be
exactly `deleted`; an identity leg of `not_found` yields 207. -/
theorem full_success_iff_legs (w : World) (uni : String) (u : UserRec)
    (e : Option String) (uid : Nat) (items : List Item) (c1 : List Call)
    (hu : w.userResp = .found u e) (hid : u.user_id = some uid) (h0 : uid ≠ 0)
    (hl : ms2_list_items w uid 0 = (.ok items, c1))
    (hnb : items.filter isBlocking = []) :
    statusOf (delete_user_and_items w uni).1 = some 200 ↔
      (ms1Leg (ms1_delete_user w uni).1 = ("deleted") ∧
        (ms2Leg (ms2_delete_items w uid).1 = ("deleted") ∨
          ms2Leg (ms2_delete_items w uid).1 = ("none"))) := by
  rw [delete_phase4 w uni u e uid items c1 hu hid h0 hl hnb]
  split
  · next hcond =>
    simp only [statusOf, true_iff]
    simp only [Bool.and_eq_true, Bool.or_eq_true, beq_iff_eq] at hcond
    exact hcond
  · next hcond =>
    simp only [statusOf]
    constructor
    · intro h
      exact absurd (Option.some.inj h) (by decide)
    · intro h
      exact absurd (by simp [beq_iff_eq, h.1, h.2]) hcond

/-- A world where everything goes right: account 1 exists, owns no
listings, both deletion legs answer cleanly. -/
def wAllGood : World where
  userResp := .found { user_id := some 1 } none
  itemsPrimary := fun _ => .resp 200 (.arr [])
  itemsAll := fun _ => .resp 200 (.arr [])
  deleteUserResp := .resp 200 ()
  deleteItem := fun _ => .resp 200 ()

/-- C2 amended witness: a `deleted` identity leg together with a `none`
catalog leg gives full success. -/
theorem full_success_iff_legs_witness :
    statusOf (delete_user_and_items wAllGood ("ab")).1 = some 200 :=
  (full_success_iff_legs wAllGood ("ab") { user_id := some 1 } none 1 []
    [Call.getItemsBySeller 1] rfl rfl (by decide) rfl rfl).mpr
    (by exact ⟨rfl, Or.inr rfl⟩)

/-- Failure of the identity leg: the response is neither 200 nor 404,
or the call raised. -/
def ms1Failed : Except String Nat → Prop
  | .error _ => True
  | .ok st => st ≠ 200 ∧ st ≠ 404

/-- Failure of the catalog leg: the aggregate status is none of 200,
204, 404. -/
def ms2Failed (st : Nat) : Prop := st ≠ 200 ∧ st ≠ 204 ∧ st ≠ 404

/-- An `error:`-prefixed leg status is never the success marker. -/
theorem errorLeg_ne_deleted (m : String) :
    (("error:") ++ m) ≠ ("deleted") := by
  intro h
  have h2 : (("error:") ++ m).data = ("deleted").data := congrArg String.data h
  rw [String.data_append] at h2
  have h3 : ('e' :: 'r' :: 'r' :: 'o' :: 'r' :: ':' :: []) ++ m.data =
      ('d' :: 'e' :: 'l' :: 'e' :: 't' :: 'e' :: 'd' :: []) := h2
  simp at h3

/-- A `failed:`-prefixed leg status is never the success marker. -/
theorem failedLeg_ne_deleted (m : String) :
    (("failed:") ++ m) ≠ ("deleted") := by
  intro h
  have h2 : (("failed:") ++ m).data = ("deleted").data := congrArg String.data h
  rw [String.data_append] at h2
  have h3 : ('f' :: 'a' :: 'i' :: 'l' :: 'e' :: 'd' :: ':' :: []) ++ m.data =
      ('d' :: 'e' :: 'l' :: 'e' :: 't' :: 'e' :: 'd' :: []) := h2
  simp at h3

/-- A failed identity leg never maps to the `deleted` status. -/
theorem ms1Leg_ne_deleted (r : Except String Nat) (h : ms1Failed r) :
    ms1Leg r ≠ ("deleted") := by
  cases r with
  | error m => exact errorLeg_ne_deleted m
  | ok st =>
    obtain ⟨h200, h404⟩ := h
    show (if st = 200 then ("deleted")
      else if st = 404 then ("not_found")
      else ("failed:") ++ toString st) ≠ ("deleted")
    rw [if_neg h200, if_neg h404]
    exact failedLeg_ne_deleted (toString st)

/-- A failed identity leg always contributes an error entry. -/
theorem ms1Errs_ne_nil (r : Except String Nat) (h : ms1Failed r) :
    ms1Errs r ≠ [] := by
  cases r with
  | error m => simp [ms1Errs]
  | ok st =>
    obtain ⟨h200, h404⟩ := h
    simp [ms1Errs, h200, h404]

/-- C6: when both deletion legs fail, the outcome is 207 carrying both
per-leg statuses and a nonempty errors list — never a generic total
failure. -/
theorem both_legs_failed_still_reported (w : World) (uni : String) (u : UserRec)
    (e : Option String) (uid : Nat) (items : List Item) (c1 : List Call)
    (hu : w.userResp = .found u e) (hid : u.user_id = some uid) (h0 : uid ≠ 0)
    (hl : ms2_list_items w uid 0 = (.ok items, c1))
    (hnb : items.filter isBlocking = [])
    (hm1 : ms1Failed (ms1_delete_user w uni).1)
    (hm2 : ms2Failed (ms2_delete_items w uid).1) :
    delete_user_and_items w uni =
      (.ok (207, Body.multiStatus (ms1Leg (ms1_delete_user w uni).1)
          (ms2Leg (ms2_delete_items w uid).1)
          (ms2Errs (ms2_delete_items w uid).1 ++
            ms1Errs (ms1_delete_user w uni).1)),
        [Call.getUser uni] ++ c1 ++ (ms2_delete_items w uid).2 ++
          (ms1_delete_user w uni).2) ∧
    (ms2Errs (ms2_delete_items w uid).1 ++
      ms1Errs (ms1_delete_user w uni).1) ≠ [] := by
  have ha := ms1Leg_ne_deleted (ms1_delete_user w uni).1 hm1
  constructor
  · rw [delete_phase4 w uni u e uid items c1 hu hid h0 hl hnb]
    rw [if_neg (by simp [Bool.and_eq_true, beq_iff_eq]; intro h1; exact absurd h1 ha)]
  · intro hnil
    rw [List.append_eq_nil] at hnil
    exact ms1Errs_ne_nil (ms1_delete_user w uni).1 hm1 hnil.2

/-- One available listing with id 5 owned by account 1. -/
def availItem5 : Item where
  item_id := some 5
  id := none
  seller_id := some 1
  status := some ("available")

/-- A world in which both deletion legs fail with HTTP 500. -/
def wBothFail : World where
  userResp := .found { user_id := some 1 } none
  itemsPrimary := fun _ => .resp 200 (.arr [availItem5])
  itemsAll := fun _ => .resp 200 .other
  deleteUserResp := .resp 500 ()
  deleteItem := fun _ => .resp 500 ()

/-- C6 witness: both legs answering 500 produce 207 with both statuses
and both error entries. -/
theorem both_legs_failed_still_reported_witness :
    delete_user_and_items wBothFail ("ab") =
      (.ok (207, Body.multiStatus (("failed:") ++ toString 500)
          (("failed:") ++ toString 500)
          [("ms2_catalog returned ") ++ toString 500,
            ("ms1_identity returned ") ++ toString 500]),
        [Call.getUser ("ab"), Call.getItemsBySeller 1,
          Call.getItemsBySeller 1, Call.deleteItem (toString 5),
          Call.deleteUser ("ab")]) :=
  (both_legs_failed_still_reported wBothFail ("ab") { user_id := some 1 } none 1
    [availItem5] [Call.getItemsBySeller 1] rfl rfl (by decide) rfl rfl
    (by constructor <;> decide) (by refine ⟨?_, ?_, ?_⟩ <;> decide)).1

/-- C7: the bulk catalog delete converts any enumeration failure into
status 404; the orchestrator maps 404 to the `none` leg status, a
success state, so a catalog outage during phase 4 is reported as a
successful no-op catalog leg (full success when the identity leg
deletes). -/
theorem phase4_outage_reported_as_none (w : World) (uni : String)
    (u : UserRec) (e : Option String) (uid : Nat) (items : List Item)
    (c1 : List Call) (m : String)
    (hu : w.userResp = .found u e) (hid : u.user_id = some uid) (h0 : uid ≠ 0)
    (hl : ms2_list_items w uid 0 = (.ok items, c1))
    (hnb : items.filter isBlocking = [])
    (hnet : w.itemsPrimary 1 = .netErr m)
    (hdel : w.deleteUserResp = .resp 200 ()) :
    (∀ w2 : World, ∀ uid2 : Nat, ∀ m2 c2,
      ms2_list_items w2 uid2 1 = (.error m2, c2) →
      ms2_delete_items w2 uid2 = (404, c2)) ∧
    ms2_delete_items w uid = (404, [Call.getItemsBySeller uid]) ∧
    ms2Leg 404 = ("none") ∧
    delete_user_and_items w uni =
      (.ok (200, Body.fullSuccess ("none")),
        [Call.getUser uni] ++ c1 ++ [Call.getItemsBySeller uid] ++
          [Call.deleteUser uni]) := by
  have hcatch : ∀ w2 : World, ∀ uid2 : Nat, ∀ m2 c2,
      ms2_list_items w2 uid2 1 = (.error m2, c2) →
      ms2_delete_items w2 uid2 = (404, c2) := by
    intro w2 uid2 m2 c2 h
    unfold ms2_delete_items ms2_delete_items_core
    rw [h]
  have h404 : ms2_delete_items w uid = (404, [Call.getItemsBySeller uid]) := by
    apply hcatch
    unfold ms2_list_items
    rw [hnet]
  have hdel1 : ms1_delete_user w uni = (.ok 200, [Call.deleteUser uni]) := by
    unfold ms1_delete_user
    rw [hdel]
  refine ⟨hcatch, h404, rfl, ?_⟩
  rw [delete_phase4 w uni u e uid items c1 hu hid h0 hl hnb, h404, hdel1]
  rfl

/-- A world where the catalog answers the pre-check enumeration but is
down by the time the deletion pass re-enumerates. -/
def wPhase4Outage : World where
  userResp := .found { user_id := some 1 } none
  itemsPrimary := fun k => if k = 0 then .resp 200 (.arr []) else .netErr ("down")
  itemsAll := fun _ => .resp 200 (.arr [])
  deleteUserResp := .resp 200 ()
  deleteItem := fun _ => .resp 200 ()

/-- C7 witness: a phase-4 catalog outage is reported as full success
with a `none` catalog leg. -/
theorem phase4_outage_reported_as_none_witness :
    delete_user_and_items wPhase4Outage ("ab") =
      (.ok (200, Body.fullSuccess ("none")),
        [Call.getUser ("ab"), Call.getItemsBySeller 1,
          Call.getItemsBySeller 1, Call.deleteUser ("ab")]) :=
  (phase4_outage_reported_as_none wPhase4Outage ("ab") { user_id := some 1 }
    none 1 [] [Call.getItemsBySeller 1] ("down") rfl rfl (by decide)
    rfl rfl rfl rfl).2.2.2

/-- C8: conditional update demands a version token: an absent (or empty)
`If-Match` yields 428 with the store untouched; a present but
mismatching token yields 412 untouched; the store changes only when the
supplied token matches the account's current one. -/
theorem replace_user_preconditions (db : List DbUser) (uni : String)
    (p : UserUpdate) (now : String) :
    (replace_user db uni none p now = ((428, none), db)) ∧
    (∀ t u, ¬ t = "" → findByUni db uni = some u →
      normalize_etag t ≠ normalize_etag (etag_of u) →
      replace_user db uni (some t) p now = ((412, none), db)) ∧
    (∀ t r db2, replace_user db uni (some t) p now = (r, db2) → db2 ≠ db →
      ¬ t = "" ∧ ∃ u, findByUni db uni = some u ∧
        normalize_etag t = normalize_etag (etag_of u)) := by
  refine ⟨rfl, ?_, ?_⟩
  · intro t u ht hu hne
    simp only [replace_user]
    rw [if_neg ht, hu]
    dsimp only
    rw [if_pos hne]
  · intro t r db2 hres hne
    simp only [replace_user] at hres
    by_cases ht : t = ""
    · rw [if_pos ht] at hres
      cases hres
      exact absurd rfl hne
    · rw [if_neg ht] at hres
      cases hfind : findByUni db uni with
      | none =>
        rw [hfind] at hres
        cases hres
        exact absurd rfl hne
      | some u =>
        rw [hfind] at hres
        have hres2 : (if normalize_etag t ≠ normalize_etag (etag_of u) then
            ((412, none), db)
          else
            ((200, some (applyUpdate u p now)),
              db.map (fun v => if v.uni == uni then applyUpdate u p now
                else v))) = (r, db2) := hres
        by_cases hm : normalize_etag t ≠ normalize_etag (etag_of u)
        · rw [if_pos hm] at hres2
          cases hres2
          exact absurd rfl hne
        · push_neg at hm
          exact ⟨ht, u, rfl, hm⟩

/-- An account row with a fixed last-seen timestamp. -/
def rowJD : DbUser where
  user_id := 1
  uni := ("jd")
  student_name := ("J")
  dept_name := none
  phone := none
  last_seen_at := some ("2024-01-01T00:00:00")

/-- A profile edit payload renaming the account. -/
def updK : UserUpdate where
  student_name := some ("K")
  dept_name := none
  phone := none

/-- C8 witness: a missing token gets 428 and a wrong token gets 412,
both leaving the store unchanged. -/
theorem replace_user_preconditions_witness :
    (replace_user [rowJD] ("jd") none updK ("t1") = ((428, none), [rowJD])) ∧
    (replace_user [rowJD] ("jd") (some ("W/\"zzz\"")) updK ("t1") =
      ((412, none), [rowJD])) :=
  ⟨(replace_user_preconditions [rowJD] ("jd") updK ("t1")).1,
    (replace_user_preconditions [rowJD] ("jd") updK ("t1")).2.1
      ("W/\"zzz\"") rowJD (by decide) rfl (by decide)⟩

/-- The row `rowJD` after the rename edit, refreshed at the same
timestamp it already carried. -/
def rowJDK : DbUser where
  user_id := 1
  uni := ("jd")
  student_name := ("K")
  dept_name := none
  phone := none
  last_seen_at := some ("2024-01-01T00:00:00")

/-- C9 counterexample: a successful mutating update whose clock reading
equals the stored last-seen timestamp returns 200 yet leaves the
change-detection token identical — the token does not always change. -/
theorem same_timestamp_update_keeps_token :
    replace_user [rowJD] ("jd") (some (etag_of rowJD)) updK
        ("2024-01-01T00:00:00") = ((200, some rowJDK), [rowJDK]) ∧
    etag_of rowJDK = etag_of rowJD := by
  constructor
  · rfl
  · rfl

/-- The token wraps the timestamp injectively. -/
theorem etag_wrap_inj (a b : String)
    (h : ("W/\"") ++ a ++ ("\"") = ("W/\"") ++ b ++ ("\"")) : a = b := by
  have h2 := congrArg String.data h
  simp only [String.data_append] at h2
  have h3 := List.append_cancel_right h2
  have h4 := List.append_cancel_left h3
  cases a with
  | mk da =>
    cases b with
    | mk db => exact congrArg String.mk h4

/-- C9 amended: the token is the last-seen timestamp, so after a
successful mutating update it differs from the previous token exactly
when the new clock reading differs from the stored one (in particular it
is not a strictly increasing counter). -/
theorem token_changes_with_new_timestamp (db : List DbUser) (uni t : String)
    (p : UserUpdate) (now : String) (u u2 : DbUser) (db2 : List DbUser)
    (hfind : findByUni db uni = some u)
    (hres : replace_user db uni (some t) p now = ((200, some u2), db2))
    (hnow : now ≠ u.last_seen_at.getD ("0")) :
    etag_of u2 ≠ etag_of u := by
  simp only [replace_user] at hres
  by_cases ht : t = ""
  · rw [if_pos ht] at hres
    simp at hres
  · rw [if_neg ht, hfind] at hres
    have hres2 : (if normalize_etag t ≠ normalize_etag (etag_of u) then
        ((412, (none : Option DbUser)), db)
      else
        ((200, some (applyUpdate u p now)),
          db.map (fun v => if v.uni == uni then applyUpdate u p now
            else v))) = ((200, some u2), db2) := hres
    by_cases hm : normalize_etag t ≠ normalize_etag (etag_of u)
    · rw [if_pos hm] at hres2
      simp at hres2
    · rw [if_neg hm] at hres2
      simp only [Prod.mk.injEq, Option.some.inj] at hres2
      obtain ⟨⟨-, hu2⟩, -⟩ := hres2
      have hu2' : u2 = applyUpdate u p now := by
        cases hu2
        rfl
      subst hu2'
      intro heq
      apply hnow
      have heq2 : ("W/\"") ++ now ++ ("\"") =
          ("W/\"") ++ (u.last_seen_at.getD ("0")) ++ ("\"") := heq
      exact etag_wrap_inj now (u.last_seen_at.getD ("0")) heq2

/-- C9 amended witness: updating with a fresh clock reading changes the
token. -/
theorem token_changes_with_new_timestamp_witness :
    etag_of (applyUpdate rowJD updK ("2024-01-02T00:00:00")) ≠
      etag_of rowJD :=
  token_changes_with_new_timestamp [rowJD] ("jd") (etag_of rowJD) updK
    ("2024-01-02T00:00:00") rowJD
    (applyUpdate rowJD updK ("2024-01-02T00:00:00"))
    [applyUpdate rowJD updK ("2024-01-02T00:00:00")] rfl rfl (by decide)

/-- The retry loop, entered at candidate `j`, settles on the least free
candidate `k` whenever the fuel covers the remaining distance. -/
theorem dedupeLoop_reaches (taken : List String) (base : String) (k : Nat)
    (hfree : candidateUni base k ∉ taken)
    (hmin : ∀ i, i < k → candidateUni base i ∈ taken) :
    ∀ fuel j, j ≤ k → k - j < fuel →
      dedupeLoop taken base (candidateUni base j) (j + 1) fuel =
        candidateUni base k := by
  intro fuel
  induction fuel with
  | zero => intro j _ h; omega
  | succ f ih =>
    intro j hj hf
    unfold dedupeLoop
    by_cases hmem : candidateUni base j ∈ taken
    · rw [if_pos hmem]
      rcases Nat.lt_or_ge j k with hlt | hge
      · have hstep : (base ++ ("_") ++ toString (j + 1)) =
            candidateUni base (j + 1) := rfl
        rw [hstep]
        exact ih (j + 1) (by omega) (by omega)
      · have hjk : j = k := le_antisymm hj hge
        rw [hjk] at hmem
        exact absurd hmem hfree
    · rw [if_neg hmem]
      rcases Nat.lt_or_ge j k with hlt | hge
      · exact absurd (hmin j hlt) hmem
      · have hjk : j = k := le_antisymm hj hge
        rw [hjk]

/-- The creation-time handle is the first free candidate. -/
theorem chooseUni_first_free (taken : List String) (base : String) (k : Nat)
    (hk : k ≤ taken.length)
    (hfree : candidateUni base k ∉ taken)
    (hmin : ∀ i, i < k → candidateUni base i ∈ taken) :
    chooseUni taken base = candidateUni base k := by
  have h0 : dedupeLoop taken base (candidateUni base 0) (0 + 1)
      (taken.length + 1) = candidateUni base k :=
    dedupeLoop_reaches taken base k hfree hmin (taken.length + 1) 0
      (Nat.zero_le k) (by omega)
  exact h0

/-- C10: when sign-in creates a new account, its handle is the base
handle de-duplicated by incrementing numeric suffixes: the first free
candidate among `base`, `base_1`, `base_2`, ... (the fuel bound
`k ≤ db.length` always holds, the earlier candidates being distinct
members of the table). -/
theorem creation_dedupes_handle (db : List GUser) (sub email name : String)
    (picture : Option String) (now : String) (k : Nat)
    (hsub : sub ≠ "") (hemail : email ≠ "")
    (hg : db.find? (fun u => u.google_id == some sub) = none)
    (he : db.find? (fun u => u.email == email) = none)
    (hk : k ≤ db.length)
    (hfree : candidateUni (baseUniOf sub email) k ∉ db.map (fun u => u.uni))
    (hmin : ∀ i, i < k →
      candidateUni (baseUniOf sub email) i ∈ db.map (fun u => u.uni)) :
    ∃ u2 db2,
      get_or_create_user_from_google db sub email name picture now =
        some (u2, db2) ∧
      u2.uni = candidateUni (baseUniOf sub email) k ∧
      db2 = db ++ [u2] := by
  have hne : ¬ (sub = "" ∨ email = "") := by
    intro h
    rcases h with h | h
    · exact hsub h
    · exact hemail h
  have huni : chooseUni (db.map (fun u => u.uni)) (baseUniOf sub email) =
      candidateUni (baseUniOf sub email) k := by
    apply chooseUni_first_free (db.map (fun u => u.uni))
      (baseUniOf sub email) k ?_ hfree hmin
    rw [List.length_map]
    exact hk
  refine ⟨{ uni := chooseUni (db.map (fun u => u.uni)) (baseUniOf sub email)
            student_name := if name ≠ "" then name else localPart email
            email := email
            avatar_url := picture
            google_id := some sub
            last_seen_at := some now }, _, ?_, huni, rfl⟩
  unfold get_or_create_user_from_google
  rw [if_neg hne, hg, he]

/-- Two accounts already holding `jdoe` and `jdoe_1`. -/
def dbJdoe : List GUser :=
  [{ uni := ("jdoe"), student_name := ("A"), email := ("a@x.com"),
      avatar_url := none, google_id := some ("g1"), last_seen_at := none },
    { uni := ("jdoe_1"), student_name := ("B"), email := ("b@x.com"),
      avatar_url := none, google_id := some ("g2"), last_seen_at := none }]

/-- C10 witness: with `jdoe` and `jdoe_1` taken, a Google sign-up whose
email local-part is `jdoe` is created as `jdoe_2`. -/
theorem creation_dedupes_handle_witness :
    ∃ u2 db2,
      get_or_create_user_from_google dbJdoe ("g3") ("jdoe@x.com") ("J")
        none ("2024-01-01T00:00:00") = some (u2, db2) ∧
      u2.uni = candidateUni (baseUniOf ("g3") ("jdoe@x.com")) 2 ∧
      db2 = dbJdoe ++ [u2] :=
  creation_dedupes_handle dbJdoe ("g3") ("jdoe@x.com") ("J") none
    ("2024-01-01T00:00:00") 2 (by decide) (by decide) rfl rfl (by decide)
    (by decide) (by decide)

/-- The fields a direct `POST /users` creation sets on the new row
(`UserCreate` plus the defaults of `create_user`). -/
structure NewUser where
  uni : String
  student_name : String
  email : String
  dept_name : Option String
  phone : Option String
  avatar_url : Option String
  last_seen_at : Option String
  deriving DecidableEq, Repr

/-- A `POST /users` request payload (`UserCreate`). -/
structure UserCreatePayload where
  uni : String
  student_name : String
  email : String
  dept_name : Option String
  phone : Option String
  avatar_url : Option String
  deriving DecidableEq, Repr

/-- `create_user` (`app/users/users.py:110`): a row whose `uni` is
already taken is rejected with 409 ("User already exists") and nothing
is created; otherwise the row is inserted with `last_seen_at = None`
and returned with 201.  There is no suffix retry on this path. -/
def create_user (db : List NewUser) (p : UserCreatePayload) :
    (Nat × Option NewUser) × List NewUser :=
  if (db.find? (fun u => u.uni == p.uni)).isSome then ((409, none), db)
  else
    let u : NewUser := {
      uni := p.uni
      student_name := p.student_name
      email := p.email
      dept_name := p.dept_name
      phone := p.phone
      avatar_url := p.avatar_url
      last_seen_at := none }
    ((201, some u), db ++ [u])

/-- A table already holding the handle `jdoe`. -/
def dbDirectJdoe : List NewUser :=
  [{ uni := ("jdoe"), student_name := ("A"), email := ("a@x.com"),
      dept_name := none, phone := none, avatar_url := none,
      last_seen_at := none }]

/-- A direct creation request for the taken handle `jdoe`. -/
def payloadJdoe : UserCreatePayload where
  uni := ("jdoe")
  student_name := ("J")
  email := ("j@x.com")
  dept_name := none
  phone := none
  avatar_url := none

/-- C10 counterexample: direct account creation with the handle `jdoe`
already taken is rejected with 409 and creates nothing — it does not
retry with `jdoe_1`, and no account receives any candidate handle. -/
theorem direct_creation_rejects_taken_handle :
    create_user dbDirectJdoe payloadJdoe = ((409, none), dbDirectJdoe) ∧
    ∀ u ∈ (create_user dbDirectJdoe payloadJdoe).2, u.uni ≠ ("jdoe_1") := by
  refine ⟨rfl, ?_⟩
  decide
